import Mathlib

/-!
Shallow embedding of the hfrt program (src/hfrt/src/lib.rs).

Modelling conventions:
* Rust `u64` fields are modelled as `Nat`.  Every `checked_*` operation of the
  source is modelled by an explicit bound test against `U64_MOD` (returning
  `ErrorCode.Overflow` exactly when the source does); the one place where the
  source uses a plain unchecked `*` on `u64`
  (`calculate_dynamic_unstake_penalty`) is modelled with an explicit wrap
  `% U64_MOD`, which is the release-build semantics of the Rust operator.
* Rust `i64` timestamps are modelled as unbounded `Int` with mathematical
  subtraction.  The source subtracts timestamps with the plain `-` operator;
  a wrap would require two timestamps more than `2^63` seconds apart
  (about 292 billion years), far outside the domain of Unix timestamps, so the
  mathematical model is faithful on the whole meaningful input space.
* Account-wiring data that no claim refers to (Pubkey fields `owner`,
  `authority`, `proposer`, `hfrt_mint`, bump seeds) is omitted from the state
  records; the token transfers / mints delegated to the SPL token program are
  external effects, and an operation that performs one returns the transferred
  amount as an explicit output.
* Fallible instructions return `Except ErrorCode σ`: an `.error` result models
  the aborted transaction, in which no account field is written (the source
  returns `Err` before any state mutation, and on Solana a failed instruction
  rolls back), so "on failure the state is unchanged" is expressed by the
  error result carrying no successor state.
-/

deriving instance DecidableEq for Except

namespace Hfrt

/-- Size of the `u64` value space, `2 ^ 64` written as a literal. -/
def U64_MOD : Nat := 18446744073709551616

/-- The error codes declared by `#[error_code] enum ErrorCode` in the source. -/
inductive ErrorCode where
  | Overflow
  | InsufficientStake
  | InvalidRebateRate
  | WashTrade
  | FrequentTrades
  | ProposalRejected
  deriving Repr, DecidableEq

/-- Rust `u64::checked_add` followed by `.ok_or(ErrorCode::Overflow)`. -/
def checked_add (a b : Nat) : Except ErrorCode Nat :=
  if a + b < U64_MOD then .ok (a + b) else .error .Overflow

/-- Rust `u64::checked_sub` followed by `.ok_or(ErrorCode::Overflow)`. -/
def checked_sub (a b : Nat) : Except ErrorCode Nat :=
  if b ≤ a then .ok (a - b) else .error .Overflow

/-- Rust `u64::checked_mul` followed by `.ok_or(ErrorCode::Overflow)`. -/
def checked_mul (a b : Nat) : Except ErrorCode Nat :=
  if a * b < U64_MOD then .ok (a * b) else .error .Overflow

/-- Rust `u64::checked_div` followed by `.ok_or(ErrorCode::Overflow)`:
it fails exactly for divisor `0`. -/
def checked_div (a b : Nat) : Except ErrorCode Nat :=
  if b = 0 then .error .Overflow else .ok (a / b)

/-- The `Trader` account (`owner : Pubkey` omitted, see the header note). -/
structure Trader where
  rolling_volume : Nat
  last_update : Int
  staked_amount : Nat
  stake_start_time : Int
  deriving Repr, DecidableEq

/-- The `Governance` account (`authority : Pubkey` omitted). -/
structure Governance where
  rebate_rate : Nat
  max_fee_discount : Nat
  deriving Repr, DecidableEq

/-- The `GlobalState` account (`authority`, `hfrt_mint`, `bump` omitted). -/
structure GlobalState where
  fee_discount : Nat
  deriving Repr, DecidableEq

/-- The `DAOProposal` account (`proposer : Pubkey` omitted). -/
structure DAOProposal where
  proposal_id : Nat
  new_fee_discount : Nat
  votes_for : Nat
  votes_against : Nat
  deriving Repr, DecidableEq

/-- `calculate_rebate_multiplier` from the source: volume-tier multiplier. -/
def calculate_rebate_multiplier (trade_volume : Nat) : Nat :=
  if trade_volume ≥ 100000000 then 5
  else if trade_volume ≥ 50000000 then 3
  else if trade_volume ≥ 10000000 then 2
  else 1

/-- `detect_frequent_trades` from the source: trades less than 5 seconds apart. -/
def detect_frequent_trades (last_trade_time current_time : Int) : Bool :=
  current_time - last_trade_time < 5

/-- `is_wash_trade` from the source: a trade above 1,000,000 less than
10 seconds after the previous one. -/
def is_wash_trade (last_trade_time current_time : Int) (trade_amount : Nat) : Bool :=
  trade_amount > 1000000 && current_time - last_trade_time < 10

/-- `calculate_dynamic_unstake_penalty` from the source.  The final
`amount * penalty_percentage / 100` uses the plain `*` operator (not
`checked_mul`), so on `u64` the product wraps modulo `2 ^ 64`; the wrap is
modelled explicitly by `% U64_MOD`. -/
def calculate_dynamic_unstake_penalty
    (stake_start_time current_time : Int) (amount : Nat) : Nat :=
  let duration := current_time - stake_start_time
  let penalty_percentage : Nat :=
    if duration < 7 * 24 * 3600 then 10
    else if duration < 14 * 24 * 3600 then 5
    else 2
  amount * penalty_percentage % U64_MOD / 100

/-- Instruction `record_trade`: anti-abuse checks against the pre-update
`last_update`, then 24h-window reset or checked accumulation, then the
unconditional `last_update := current_time`. -/
def record_trade (trader : Trader) (trade_amount : Nat) (current_time : Int) :
    Except ErrorCode Trader :=
  if is_wash_trade trader.last_update current_time trade_amount then
    .error .WashTrade
  else if detect_frequent_trades trader.last_update current_time then
    .error .FrequentTrades
  else if current_time - trader.last_update ≥ 24 * 3600 then
    .ok { trader with rolling_volume := trade_amount, last_update := current_time }
  else
    match checked_add trader.rolling_volume trade_amount with
    | .error e => .error e
    | .ok v => .ok { trader with rolling_volume := v, last_update := current_time }

/-- Instruction `claim_rebate`: computes the rebate from `rolling_volume` and
`governance.rebate_rate`, zeroes `rolling_volume`, and returns the amount
passed to the external `token::mint_to`. -/
def claim_rebate (trader : Trader) (governance : Governance) :
    Except ErrorCode (Trader × Nat) :=
  match checked_mul trader.rolling_volume governance.rebate_rate with
  | .error e => .error e
  | .ok scaled =>
    match checked_div scaled 1000 with
    | .error e => .error e
    | .ok base_rebate =>
      match checked_mul base_rebate (calculate_rebate_multiplier trader.rolling_volume) with
      | .error e => .error e
      | .ok total_rebate =>
        .ok ({ trader with rolling_volume := 0 }, total_rebate)

/-- Instruction `stake_tokens`: checked `staked_amount += amount`, and the
stake clock starts only when `stake_start_time == 0`.  (The inbound token
transfer is external.) -/
def stake_tokens (trader : Trader) (amount : Nat) (current_time : Int) :
    Except ErrorCode Trader :=
  match checked_add trader.staked_amount amount with
  | .error e => .error e
  | .ok staked =>
    let trader1 := { trader with staked_amount := staked }
    if trader1.stake_start_time = 0 then
      .ok { trader1 with stake_start_time := current_time }
    else
      .ok trader1

/-- Instruction `unstake_tokens`: requires `staked_amount >= amount`, applies
the dynamic penalty, decrements the stake, resets the stake clock on full
unstake, and returns the amount transferred back to the trader. -/
def unstake_tokens (trader : Trader) (amount : Nat) (current_time : Int) :
    Except ErrorCode (Trader × Nat) :=
  if trader.staked_amount < amount then
    .error .InsufficientStake
  else
    let penalty :=
      calculate_dynamic_unstake_penalty trader.stake_start_time current_time amount
    match checked_sub amount penalty with
    | .error e => .error e
    | .ok amount_after_penalty =>
      match checked_sub trader.staked_amount amount with
      | .error e => .error e
      | .ok staked =>
        let trader1 := { trader with staked_amount := staked }
        if trader1.staked_amount = 0 then
          .ok ({ trader1 with stake_start_time := 0 }, amount_after_penalty)
        else
          .ok (trader1, amount_after_penalty)

/-- Instruction `auto_compound`: the same rebate computation and zeroing as
`claim_rebate`, then the minted amount is folded into `staked_amount` and the
stake clock starts if not already running.  Returns the minted amount. -/
def auto_compound (trader : Trader) (governance : Governance) (current_time : Int) :
    Except ErrorCode (Trader × Nat) :=
  match checked_mul trader.rolling_volume governance.rebate_rate with
  | .error e => .error e
  | .ok scaled =>
    match checked_div scaled 1000 with
    | .error e => .error e
    | .ok base_rebate =>
      match checked_mul base_rebate (calculate_rebate_multiplier trader.rolling_volume) with
      | .error e => .error e
      | .ok total_rebate =>
        let trader1 := { trader with rolling_volume := 0 }
        match checked_add trader1.staked_amount total_rebate with
        | .error e => .error e
        | .ok staked =>
          let trader2 := { trader1 with staked_amount := staked }
          if trader2.stake_start_time = 0 then
            .ok ({ trader2 with stake_start_time := current_time }, total_rebate)
          else
            .ok (trader2, total_rebate)

/-- Instruction `initialize_governance`: writes both parameters with no
validation. -/
def initialize_governance (rebate_rate max_fee_discount : Nat) : Governance :=
  { rebate_rate := rebate_rate, max_fee_discount := max_fee_discount }

/-- Instruction `update_rebate_rate`: `require!(new_rate <= max_fee_discount)`
then writes the new rate. -/
def update_rebate_rate (governance : Governance) (new_rate : Nat) :
    Except ErrorCode Governance :=
  if new_rate ≤ governance.max_fee_discount then
    .ok { governance with rebate_rate := new_rate }
  else
    .error .InvalidRebateRate

/-- Instruction `execute_dao_proposal`: strict majority required, then the
proposal's `new_fee_discount` is written into the global state. -/
def execute_dao_proposal (proposal : DAOProposal) (global_state : GlobalState) :
    Except ErrorCode GlobalState :=
  if proposal.votes_for > proposal.votes_against then
    .ok { global_state with fee_discount := proposal.new_fee_discount }
  else
    .error .ProposalRejected

/-- The staking invariant of spec §3:
`stakedAmount == 0 ⟺ stakeStartTime == 0`. -/
def stakeInvariant (t : Trader) : Prop :=
  t.staked_amount = 0 ↔ t.stake_start_time = 0

instance (t : Trader) : Decidable (stakeInvariant t) := by
  unfold stakeInvariant; infer_instance

/-! ## Helper lemmas shared by several results -/

/-- The tier multiplier is monotone in the volume. -/
theorem calculate_rebate_multiplier_mono {v1 v2 : Nat} (h : v1 ≤ v2) :
    calculate_rebate_multiplier v1 ≤ calculate_rebate_multiplier v2 := by
  unfold calculate_rebate_multiplier
  split_ifs <;> omega

/-- The tier multiplier is at least 1. -/
theorem one_le_calculate_rebate_multiplier (v : Nat) :
    1 ≤ calculate_rebate_multiplier v := by
  unfold calculate_rebate_multiplier
  split_ifs <;> omega

/-- Characterization of a successful `claim_rebate`: the new trader state has
its volume zeroed and the minted amount is
`floor(volume * rate / 1000) * multiplier(volume)`. -/
theorem claim_rebate_ok_eq {t : Trader} {g : Governance} {r : Trader × Nat}
    (h : claim_rebate t g = .ok r) :
    r = ({ t with rolling_volume := 0 },
      t.rolling_volume * g.rebate_rate / 1000 *
        calculate_rebate_multiplier t.rolling_volume) := by
  unfold claim_rebate checked_mul checked_div at h
  by_cases h1 : t.rolling_volume * g.rebate_rate < U64_MOD <;>
    by_cases h2 : t.rolling_volume * g.rebate_rate / 1000 *
      calculate_rebate_multiplier t.rolling_volume < U64_MOD <;>
    simp_all

/-- `claim_rebate` succeeds whenever both checked multiplications stay below
`2 ^ 64`. -/
theorem claim_rebate_ok_of {t : Trader} {g : Governance}
    (h1 : t.rolling_volume * g.rebate_rate < U64_MOD)
    (h2 : t.rolling_volume * g.rebate_rate / 1000 *
      calculate_rebate_multiplier t.rolling_volume < U64_MOD) :
    claim_rebate t g = .ok ({ t with rolling_volume := 0 },
      t.rolling_volume * g.rebate_rate / 1000 *
        calculate_rebate_multiplier t.rolling_volume) := by
  unfold claim_rebate checked_mul checked_div
  split_ifs <;> simp_all

/-- The rebate amount returned by a successful `auto_compound` is
`floor(volume * rate / 1000) * multiplier(volume)`. -/
theorem auto_compound_ok_snd {t : Trader} {g : Governance} {now : Int}
    {r : Trader × Nat} (h : auto_compound t g now = .ok r) :
    r.2 = t.rolling_volume * g.rebate_rate / 1000 *
      calculate_rebate_multiplier t.rolling_volume := by
  unfold auto_compound checked_mul checked_div checked_add at h
  by_cases h1 : t.rolling_volume * g.rebate_rate < U64_MOD <;>
  by_cases h2 : t.rolling_volume * g.rebate_rate / 1000 *
    calculate_rebate_multiplier t.rolling_volume < U64_MOD <;>
  by_cases h3 : t.staked_amount + t.rolling_volume * g.rebate_rate / 1000 *
    calculate_rebate_multiplier t.rolling_volume < U64_MOD <;>
  by_cases h4 : t.stake_start_time = 0 <;>
  simp_all <;> (subst h; simp)

/-- Stake-field characterization of a successful `auto_compound`: the minted
amount is folded into `staked_amount` and the stake clock starts only when it
was not already running. -/
theorem auto_compound_ok_stake {t : Trader} {g : Governance} {now : Int}
    {r : Trader × Nat} (h : auto_compound t g now = .ok r) :
    r.1.staked_amount = t.staked_amount + r.2 ∧
    r.1.stake_start_time =
      (if t.stake_start_time = 0 then now else t.stake_start_time) := by
  unfold auto_compound checked_mul checked_div checked_add at h
  by_cases h1 : t.rolling_volume * g.rebate_rate < U64_MOD <;>
  by_cases h2 : t.rolling_volume * g.rebate_rate / 1000 *
    calculate_rebate_multiplier t.rolling_volume < U64_MOD <;>
  by_cases h3 : t.staked_amount + t.rolling_volume * g.rebate_rate / 1000 *
    calculate_rebate_multiplier t.rolling_volume < U64_MOD <;>
  by_cases h4 : t.stake_start_time = 0 <;>
  simp_all <;> (subst h; simp)

/-! ## Claims -/

/-- Claim C4: `record_trade` fails with `WashTrade` iff the trade amount
exceeds 1,000,000 and less than 10 seconds elapsed since the pre-update
`last_update` (this check runs first and short-circuits); otherwise it fails
with `FrequentTrades` iff less than 5 seconds elapsed, regardless of size.
On either failure the returned value is the bare error, carrying no modified
trader state. -/
theorem record_trade_error_spec (t : Trader) (amt : Nat) (now : Int) :
    (record_trade t amt now = .error .WashTrade ↔
      1000000 < amt ∧ now - t.last_update < 10) ∧
    (record_trade t amt now = .error .FrequentTrades ↔
      ¬(1000000 < amt ∧ now - t.last_update < 10) ∧ now - t.last_update < 5) := by
  unfold record_trade is_wash_trade detect_frequent_trades checked_add
  split_ifs with h1 h2 h3 h4 <;> simp_all

/-- Claim C4 witness: the spec §8 example — a 2,000,000 trade 3 seconds after
the previous one is rejected as a wash trade. -/
theorem record_trade_error_spec_witness :
    record_trade ⟨0, 0, 0, 0⟩ 2000000 3 = .error .WashTrade :=
  (record_trade_error_spec ⟨0, 0, 0, 0⟩ 2000000 3).1.mpr (by decide)

/-- Claim C5: on every accepted trade, `last_update` is unconditionally set to
`now`; `rolling_volume` is reset to the trade amount when at least 86400
seconds elapsed since the previous `last_update`, and is otherwise the checked
sum of the old volume and the trade amount (so acceptance implies the sum is
below `2 ^ 64`). -/
theorem record_trade_accept_spec (t : Trader) (amt : Nat) (now : Int)
    (t' : Trader) (h : record_trade t amt now = .ok t') :
    t'.last_update = now ∧
    (24 * 3600 ≤ now - t.last_update → t'.rolling_volume = amt) ∧
    (now - t.last_update < 24 * 3600 →
      t.rolling_volume + amt < U64_MOD ∧
      t'.rolling_volume = t.rolling_volume + amt) := by
  unfold record_trade is_wash_trade detect_frequent_trades checked_add at h
  split_ifs at h with h1 h2 h3 h4
  all_goals injection h with h
  all_goals subst h
  · exact ⟨rfl, fun _ => rfl, fun hc => absurd hc (by omega)⟩
  · exact ⟨rfl, fun hc => absurd hc (by omega), fun _ => ⟨h4, rfl⟩⟩

/-- Claim C5 witness: a trade of 5 accepted 100 seconds after the previous
update accumulates into the rolling volume and stamps `last_update`. -/
theorem record_trade_accept_spec_witness :
    (⟨5, 100, 0, 0⟩ : Trader).last_update = 100 ∧
    ((⟨5, 100, 0, 0⟩ : Trader).rolling_volume = (⟨0, 0, 0, 0⟩ : Trader).rolling_volume + 5) :=
  have h := record_trade_accept_spec ⟨0, 0, 0, 0⟩ 5 100 ⟨5, 100, 0, 0⟩ (by decide)
  ⟨h.1, (h.2.2 (by decide)).2⟩

/-- Claim C1: when neither checked multiplication overflows, `claim_rebate`
mints exactly `floor(rollingVolume * rebateRate / 1000)` times the tier
multiplier of `rollingVolume` (the `calculate_rebate_multiplier` tiers:
`≥ 100,000,000 → 5`, `≥ 50,000,000 → 3`, `≥ 10,000,000 → 2`, else `1`,
inclusive lower bounds evaluated highest-first), zeroing the volume; and every
successful `auto_compound` computes that identical amount. -/
theorem claim_rebate_formula (t : Trader) (g : Governance)
    (h1 : t.rolling_volume * g.rebate_rate < U64_MOD)
    (h2 : t.rolling_volume * g.rebate_rate / 1000 *
      calculate_rebate_multiplier t.rolling_volume < U64_MOD) :
    claim_rebate t g = .ok ({ t with rolling_volume := 0 },
      t.rolling_volume * g.rebate_rate / 1000 *
        calculate_rebate_multiplier t.rolling_volume) ∧
    ∀ (now : Int) (r : Trader × Nat), auto_compound t g now = .ok r →
      r.2 = t.rolling_volume * g.rebate_rate / 1000 *
        calculate_rebate_multiplier t.rolling_volume :=
  ⟨claim_rebate_ok_of h1 h2, fun _ _ h => auto_compound_ok_snd h⟩

/-- Claim C1 witness: the spec §8 example — volume 75,000,000 at rate 10 gives
base rebate 750,000, multiplier 3, total 2,250,000, and the volume is zeroed. -/
theorem claim_rebate_formula_witness :
    claim_rebate ⟨75000000, 0, 0, 0⟩ ⟨10, 100⟩ = .ok (⟨0, 0, 0, 0⟩, 2250000) := by
  have h := (claim_rebate_formula ⟨75000000, 0, 0, 0⟩ ⟨10, 100⟩
    (by decide) (by decide)).1
  rw [h]; decide

/-- Claim C9 counterexample: the claim asserts a nonzero first rebate for
every trader and governance state, but with `rollingVolume = 1` and
`rebateRate = 1` the floor division makes the first `claim_rebate` amount
exactly zero. -/
theorem claim_rebate_zero_first_call :
    ¬ (∀ (t : Trader) (g : Governance) (t1 : Trader) (a1 : Nat),
        claim_rebate t g = .ok (t1, a1) → 0 < a1) := by
  intro h
  exact absurd (h ⟨1, 0, 0, 0⟩ ⟨1, 10⟩ ⟨0, 0, 0, 0⟩ 0 (by decide)) (by decide)

/-- Claim C9 (amended): the second of two immediately successive
`claim_rebate` calls always yields exactly zero, the volume having been
unconditionally zeroed by the first; the first call yields a nonzero amount
provided `rollingVolume * rebateRate ≥ 1000` (and no checked step
overflows). -/
theorem claim_rebate_twice_spec (t : Trader) (g : Governance)
    (h0 : 1000 ≤ t.rolling_volume * g.rebate_rate)
    (h1 : t.rolling_volume * g.rebate_rate < U64_MOD)
    (h2 : t.rolling_volume * g.rebate_rate / 1000 *
      calculate_rebate_multiplier t.rolling_volume < U64_MOD) :
    ∃ (t1 : Trader) (a1 : Nat), claim_rebate t g = .ok (t1, a1) ∧ 0 < a1 ∧
      claim_rebate t1 g = .ok (t1, 0) := by
  refine ⟨_, _, claim_rebate_ok_of h1 h2, ?_, ?_⟩
  · have hb : 1 ≤ t.rolling_volume * g.rebate_rate / 1000 := by omega
    exact Nat.mul_pos hb (one_le_calculate_rebate_multiplier t.rolling_volume)
  · have ha : ({ t with rolling_volume := 0 } : Trader).rolling_volume *
        g.rebate_rate < U64_MOD := by
      simp [U64_MOD]
    have hb : ({ t with rolling_volume := 0 } : Trader).rolling_volume *
        g.rebate_rate / 1000 *
        calculate_rebate_multiplier
          ({ t with rolling_volume := 0 } : Trader).rolling_volume < U64_MOD := by
      simp [U64_MOD, calculate_rebate_multiplier]
    simpa using claim_rebate_ok_of ha hb

/-- Claim C9 witness: volume 100,000 at rate 10 yields 1000 on the first call
and exactly zero on an immediately repeated call. -/
theorem claim_rebate_twice_spec_witness :
    ∃ (t1 : Trader) (a1 : Nat),
      claim_rebate ⟨100000, 0, 0, 0⟩ ⟨10, 10⟩ = .ok (t1, a1) ∧ 0 < a1 ∧
      claim_rebate t1 ⟨10, 10⟩ = .ok (t1, 0) :=
  claim_rebate_twice_spec ⟨100000, 0, 0, 0⟩ ⟨10, 10⟩
    (by decide) (by decide) (by decide)

/-- Claim C10: for a fixed governance state, the rebate amount computed by
`claim_rebate` is monotone non-decreasing in the rolling volume — a larger
24h volume never produces a smaller rebate. -/
theorem rebate_monotone (g : Governance) (t1 t2 : Trader)
    (r1 r2 : Trader × Nat)
    (hv : t1.rolling_volume ≤ t2.rolling_volume)
    (h1 : claim_rebate t1 g = .ok r1) (h2 : claim_rebate t2 g = .ok r2) :
    r1.2 ≤ r2.2 := by
  simp only [claim_rebate_ok_eq h1, claim_rebate_ok_eq h2]
  exact Nat.mul_le_mul
    (Nat.div_le_div_right (Nat.mul_le_mul hv le_rfl))
    (calculate_rebate_multiplier_mono hv)

/-- Claim C10 witness: volume 1000 yields rebate 10 and volume 2000 yields
rebate 20 at rate 10, and the theorem orders them. -/
theorem rebate_monotone_witness :
    claim_rebate ⟨1000, 0, 0, 0⟩ ⟨10, 100⟩ = .ok (⟨0, 0, 0, 0⟩, 10) ∧
    claim_rebate ⟨2000, 0, 0, 0⟩ ⟨10, 100⟩ = .ok (⟨0, 0, 0, 0⟩, 20) ∧
    (((⟨0, 0, 0, 0⟩, 10) : Trader × Nat).2 ≤
      ((⟨0, 0, 0, 0⟩, 20) : Trader × Nat).2) :=
  ⟨by decide, by decide,
    rebate_monotone ⟨10, 100⟩ ⟨1000, 0, 0, 0⟩ ⟨2000, 0, 0, 0⟩ _ _
      (by decide) (by decide) (by decide)⟩

/-- Claim C3 counterexample: the biconditional
`stakedAmount == 0 ↔ stakeStartTime == 0` is NOT preserved for every amount:
`stake_tokens` with `amount = 0` at time 5, from the state satisfying the
invariant with all fields zero, succeeds and sets `stake_start_time := 5`
while `staked_amount` stays 0. -/
theorem stake_tokens_zero_amount_counterexample :
    ¬ (∀ (t : Trader) (amount : Nat) (now : Int) (t' : Trader),
        stake_tokens t amount now = .ok t' →
        stakeInvariant t → stakeInvariant t') := by
  intro h
  have h5 := h ⟨0, 0, 0, 0⟩ 0 5 ⟨0, 0, 0, 5⟩ (by decide) (by decide)
  exact absurd h5 (by decide)

/-- Claim C3 (amended): the biconditional
`stakedAmount == 0 ↔ stakeStartTime == 0` is preserved from any state
satisfying it by `unstake_tokens` unconditionally, and by `stake_tokens` and
`auto_compound` whenever the amount added to the stake (the staked amount,
resp. the compounded rebate) is positive and the current timestamp is nonzero;
`stake_tokens` with a zero amount (or at timestamp 0) can break it. -/
theorem staking_invariant_preserved :
    (∀ (t : Trader) (amount : Nat) (now : Int) (t' : Trader),
      stake_tokens t amount now = .ok t' → 0 < amount → now ≠ 0 →
      stakeInvariant t → stakeInvariant t') ∧
    (∀ (t : Trader) (g : Governance) (now : Int) (r : Trader × Nat),
      auto_compound t g now = .ok r → 0 < r.2 → now ≠ 0 →
      stakeInvariant t → stakeInvariant r.1) ∧
    (∀ (t : Trader) (amount : Nat) (now : Int) (r : Trader × Nat),
      unstake_tokens t amount now = .ok r →
      stakeInvariant t → stakeInvariant r.1) := by
  refine ⟨?_, ?_, ?_⟩
  · intro t amount now t' h ha hn hinv
    simp only [stake_tokens, checked_add] at h
    split_ifs at h with h1 h2
    all_goals injection h with h
    all_goals subst h
    all_goals unfold stakeInvariant at hinv ⊢
    all_goals simp_all
    all_goals omega
  · intro t g now r h hpos hn hinv
    obtain ⟨hs, hst⟩ := auto_compound_ok_stake h
    unfold stakeInvariant at hinv ⊢
    rw [hs, hst]
    split_ifs with h0 <;> omega
  · intro t amount now r h hinv
    simp only [unstake_tokens, checked_sub] at h
    by_cases h1 : t.staked_amount < amount
    · rw [if_pos h1] at h
      exact Except.noConfusion h
    · rw [if_neg h1] at h
      by_cases h2 : calculate_dynamic_unstake_penalty t.stake_start_time now
          amount ≤ amount
      · rw [if_pos h2] at h
        simp only [] at h
        rw [if_pos (by omega : amount ≤ t.staked_amount)] at h
        simp only [] at h
        split_ifs at h with h4
        all_goals injection h with h
        all_goals subst h
        all_goals unfold stakeInvariant at hinv ⊢
        all_goals simp_all
        all_goals omega
      · rw [if_neg h2] at h
        exact Except.noConfusion h

/-- Claim C3 witness: staking 1 at time 7 from the all-zero state yields a
state with `staked_amount = 1` and `stake_start_time = 7`, which satisfies the
invariant. -/
theorem staking_invariant_preserved_witness :
    stakeInvariant ⟨0, 0, 1, 7⟩ :=
  staking_invariant_preserved.1 ⟨0, 0, 0, 0⟩ 1 7 ⟨0, 0, 1, 7⟩
    (by decide) (by decide) (by decide) (by decide)

/-- Claim C6 counterexample: for `amount = 2^63` (staked since time 100,
unstaked at time 200, so in the 10% tier) the claimed payout
`amount - amount * 10 / 100` does not match the code: the unchecked
multiplication `amount * 10` wraps to 0 modulo `2^64`, the penalty is 0, and
the code pays out the full `2^63`. -/
theorem unstake_tokens_formula_counterexample :
    unstake_tokens ⟨0, 0, 9223372036854775808, 100⟩ 9223372036854775808 200 =
      .ok (⟨0, 0, 0, 0⟩, 9223372036854775808) ∧
    (9223372036854775808 : Nat) ≠
      9223372036854775808 - 9223372036854775808 * 10 / 100 := by decide

/-- Claim C6 (amended): provided `amount * penaltyPct` fits in 64 bits
(`amount * 10 < 2^64` suffices for every tier), `unstake_tokens` with
`stakedAmount ≥ amount` returns `amount - amount * penaltyPct / 100` in floor
division, with `penaltyPct` 10 below 7 days, 5 below 14 days else 2,
decrements `stakedAmount` by `amount` (resetting the stake clock on full
unstake), and fails with `InsufficientStake` when `stakedAmount < amount`;
without that bound the unchecked multiplication wraps modulo `2^64`. -/
theorem unstake_tokens_spec (t : Trader) (amount : Nat) (now : Int)
    (hov : amount * 10 < U64_MOD) :
    (t.staked_amount < amount →
      unstake_tokens t amount now = .error .InsufficientStake) ∧
    (amount ≤ t.staked_amount →
      unstake_tokens t amount now = .ok
        ({ t with
            staked_amount := t.staked_amount - amount,
            stake_start_time :=
              if t.staked_amount - amount = 0 then 0 else t.stake_start_time },
         amount - amount *
           (if now - t.stake_start_time < 7 * 24 * 3600 then 10
            else if now - t.stake_start_time < 14 * 24 * 3600 then 5
            else 2) / 100)) := by
  have hov' : amount * 10 < 18446744073709551616 := by
    simpa [U64_MOD] using hov
  constructor
  · intro hlt
    simp only [unstake_tokens]
    rw [if_pos hlt]
  · intro hle
    simp only [unstake_tokens, calculate_dynamic_unstake_penalty, checked_sub,
      U64_MOD]
    rw [if_neg (by omega)]
    rw [Nat.mod_eq_of_lt (by split_ifs <;> omega)]
    rw [if_pos (by split_ifs <;> omega)]
    simp only []
    rw [if_pos hle]
    simp only []
    split_ifs <;> rfl

/-- Claim C6 witness: the spec §8 example — unstaking 1000 after 5 days
(432000 s) incurs the 10% penalty of 100 and returns 900, emptying the
stake and resetting the clock. -/
theorem unstake_tokens_spec_witness :
    unstake_tokens ⟨0, 0, 1000, 0⟩ 1000 432000 = .ok (⟨0, 0, 0, 0⟩, 900) := by
  have h := (unstake_tokens_spec ⟨0, 0, 1000, 0⟩ 1000 432000 (by decide)).2
    (by decide)
  rw [h]; decide

/-- Claim C2 (code bug evidence): the penalty step of `unstake_tokens` is NOT
overflow-checked.  For `amount = 2^63 + 500` in the 10% tier, `amount * 10`
exceeds `u64` (so the claim requires the operation to abort with `Overflow`),
yet the operation succeeds: the product wraps to 5000, the penalty is 50, and
the full stake is paid out minus 50. -/
theorem unstake_unchecked_penalty_wraps :
    unstake_tokens ⟨0, 0, 9223372036854776308, 100⟩ 9223372036854776308 200 =
      .ok (⟨0, 0, 0, 0⟩, 9223372036854776258) ∧
    unstake_tokens ⟨0, 0, 9223372036854776308, 100⟩ 9223372036854776308 200 ≠
      .error .Overflow := by decide

/-- Claim C7 counterexample: `initialize_governance` performs no validation,
so `rebateRate ≤ maxFeeDiscount` does NOT hold after it for every pair of
arguments: initializing with rate 50 and ceiling 10 violates it. -/
theorem initialize_governance_counterexample :
    ¬ ((initialize_governance 50 10).rebate_rate ≤
        (initialize_governance 50 10).max_fee_discount) := by decide

/-- Claim C7 (amended): `rebateRate ≤ maxFeeDiscount` holds after
`initialize_governance` exactly for argument pairs that already satisfy it
(initialization performs no check), and `update_rebate_rate` preserves it:
it fails with `InvalidRebateRate` whenever `newRate > maxFeeDiscount` and
otherwise succeeds setting `rebateRate = newRate`, so any state it returns
satisfies the invariant. -/
theorem governance_rate_invariant :
    (∀ r m : Nat, r ≤ m →
      (initialize_governance r m).rebate_rate ≤
        (initialize_governance r m).max_fee_discount) ∧
    (∀ (g : Governance) (new_rate : Nat),
      (g.max_fee_discount < new_rate →
        update_rebate_rate g new_rate = .error .InvalidRebateRate) ∧
      (new_rate ≤ g.max_fee_discount →
        update_rebate_rate g new_rate = .ok { g with rebate_rate := new_rate }) ∧
      (∀ g' : Governance, update_rebate_rate g new_rate = .ok g' →
        g'.rebate_rate ≤ g'.max_fee_discount)) := by
  refine ⟨fun r m h => h, fun g nr => ⟨?_, ?_, ?_⟩⟩
  · intro hgt
    unfold update_rebate_rate
    rw [if_neg (by omega)]
  · intro hle
    unfold update_rebate_rate
    rw [if_pos hle]
  · intro g' h
    unfold update_rebate_rate at h
    split_ifs at h with hc
    injection h with h
    subst h
    exact hc

/-- Claim C7 witness: initializing with rate 3 and ceiling 7 satisfies the
invariant. -/
theorem governance_rate_invariant_witness :
    (initialize_governance 3 7).rebate_rate ≤
      (initialize_governance 3 7).max_fee_discount :=
  governance_rate_invariant.1 3 7 (by decide)

/-- Claim C8: `execute_dao_proposal` fails with `ProposalRejected` exactly
when `votesFor ≤ votesAgainst` (ties fail; the error result carries no state,
so the fee discount is untouched), and under a strict majority it writes the
proposal's `newFeeDiscount` into the global state. -/
theorem execute_dao_proposal_spec (p : DAOProposal) (gs : GlobalState) :
    (execute_dao_proposal p gs = .error .ProposalRejected ↔
      p.votes_for ≤ p.votes_against) ∧
    (p.votes_against < p.votes_for →
      execute_dao_proposal p gs =
        .ok { gs with fee_discount := p.new_fee_discount }) := by
  unfold execute_dao_proposal
  split_ifs with h
  all_goals constructor
  all_goals simp_all

/-- Claim C8 witness: the spec §8 example — 6 votes for and 5 against pass,
writing the proposed fee discount 42 into the global state. -/
theorem execute_dao_proposal_spec_witness :
    execute_dao_proposal ⟨1, 42, 6, 5⟩ ⟨0⟩ = .ok ⟨42⟩ :=
  (execute_dao_proposal_spec ⟨1, 42, 6, 5⟩ ⟨0⟩).2 (by decide)

end Hfrt
